import Mathlib

/-!
Verification of the scoring-api repository (src/api.py, src/store.py)
against its natural-language specification.

The embedding models Python values shallowly (`PyVal`), translates each
field validator, the schema engine (`BaseModel._validate_model` and
`BaseModel.__init__`), the authenticator (`check_auth`), the dispatcher
(`method_handler` with `online_score` / `clients_interests`) and the
resilient store client (`trying_factory`, `RedisStore.cache_get` / `get`).

Modelling conventions:
- machine-independent: Python ints are `Int`; the store layer's floats
  (cache values round-trip via decimal text) are a mantissa/scale pair
  `PyFloat`;
- a raised exception is `Except.error` carrying a `PyErr`;
- `datetime.datetime.now()` is passed in explicitly: `nowYear` for the
  date validators, `nowHour` (the `%Y%m%d%H` string) for `check_auth`;
- `hashlib.sha512(...).hexdigest()` is an abstract parameter
  `sha512 : String → String`;
- the external scoring module (`get_score`, `get_interests`) is abstract:
  the dispatcher theorems quantify over it;
- `inspect.getmembers` sorts an instance's attributes alphabetically and,
  besides the declared `BaseField` attributes, also reports the plain
  (non-routine, non-dunder) members `error`, and where present `is_admin`
  and `root_validate`; the concrete schema lists below reproduce exactly
  that alphabetical list, with `Member.plain` for the non-field members.
-/

namespace ScoringApi

/-- A Python value as it can reach the validation layer from a parsed JSON
body: `None`, booleans, integers, strings, lists and string-keyed dicts.
(JSON floats do not occur in any claim; the store layer models floats
separately as `PyFloat`.) -/
inductive PyVal where
  | none
  | bool (b : Bool)
  | int (n : Int)
  | str (s : String)
  | list (xs : List PyVal)
  | dict (entries : List (String × PyVal))

/-- The Python exceptions the modelled code can raise. -/
inductive PyErr where
  | typeError
  | valueError
  | attributeError
  | redisError
  | storeKeyNotFound
deriving DecidableEq, Repr

/-- Python truthiness (`bool(value)`) for the modelled values. -/
def truthy : PyVal → Bool
  | .none => false
  | .bool b => b
  | .int n => n != 0
  | .str s => !s.data.isEmpty
  | .list xs => !xs.isEmpty
  | .dict es => !es.isEmpty

/-- `value is None`. -/
def isNone : PyVal → Bool
  | .none => true
  | _ => false

/-- `isinstance(value, str)` (a Python `bool` is not a `str`). -/
def isInstStr : PyVal → Bool
  | .str _ => true
  | _ => false

/-- `isinstance(value, int)`: Python `bool` is a subclass of `int`. -/
def isInstInt : PyVal → Bool
  | .int _ => true
  | .bool _ => true
  | _ => false

/-- Python `==` between a value and a string literal (used for
`login == ADMIN_LOGIN` and `digest == request.token`): only equal strings
compare equal, any non-string value compares unequal. -/
def pyEqStr (v : PyVal) (s : String) : Bool :=
  match v with
  | .str t => t = s
  | _ => false

/-- `str(value)` for the values `PhoneField` stringifies (`str` or `int`,
where Python bools stringify as `True` / `False`). -/
def pyStr : PyVal → String
  | .str s => s
  | .int n => toString n
  | .bool b => if b then "True" else "False"
  | _ => ""

/-- The constants of src/api.py. -/
def SALT : String := "Otus"

/-- `ADMIN_LOGIN` from src/api.py. -/
def ADMIN_LOGIN : String := "admin"

/-- `ADMIN_SALT` from src/api.py. -/
def ADMIN_SALT : String := "42"

/-- `OK` status code. -/
def OK : Nat := 200

/-- `BAD_REQUEST` status code. -/
def BAD_REQUEST : Nat := 400

/-- `FORBIDDEN` status code. -/
def FORBIDDEN : Nat := 403

/-- `INVALID_REQUEST` status code. -/
def INVALID_REQUEST : Nat := 422

/-- `ADMIN_SCORE` from src/api.py. -/
def ADMIN_SCORE : Int := 42

/-- `DELTA_YEAR` from src/api.py. -/
def DELTA_YEAR : Int := 70

end ScoringApi

namespace ScoringApi

/-! ## Date parsing (`datetime.datetime.strptime(value, '%d.%m.%Y')`)

`_strptime` first raises `TypeError` when the argument is not a string
(only `ValueError` is caught in `BaseField._validate_date`); on a string it
matches day (1-2 digits, value 1..31, "0"/"00" excluded), a dot, month
(1-2 digits, value 1..12), a dot, year (exactly 4 digits), requires the
whole string consumed, and then `datetime.date` construction checks the
day against the month length (and the year against `MINYEAR = 1`). -/

/-- The decimal value of an ASCII digit. -/
def digitVal (c : Char) : Option Nat :=
  if '0' ≤ c ∧ c ≤ '9' then some (c.toNat - 48) else Option.none

/-- The value of a non-empty all-digit character list. -/
def natOfDigits : List Char → Option Nat → Option Nat
  | [], acc => acc
  | c :: cs, acc =>
    match digitVal c, acc with
    | some d, some a => natOfDigits cs (some (a * 10 + d))
    | some d, Option.none => natOfDigits cs (some d)
    | Option.none, _ => Option.none

/-- Split a character list at every dot, keeping empty groups. -/
def splitOnDot : List Char → List (List Char)
  | [] => [[]]
  | c :: rest =>
    if c = '.' then [] :: splitOnDot rest
    else match splitOnDot rest with
      | [] => [[c]]
      | g :: gs => (c :: g) :: gs

/-- Whether `y` is a Gregorian leap year (`calendar.isleap`). -/
def isLeap (y : Nat) : Bool :=
  y % 4 == 0 && (y % 100 != 0 || y % 400 == 0)

/-- Days in month `m` of year `y` (months counted 1..12). -/
def daysInMonth (y m : Nat) : Nat :=
  if m = 2 then (if isLeap y then 29 else 28)
  else if m = 4 ∨ m = 6 ∨ m = 9 ∨ m = 11 then 30
  else 31

/-- Parse a string in strict `%d.%m.%Y` format, returning
`(day, month, year)` exactly when `strptime` succeeds. -/
def parseDMY (s : String) : Option (Nat × Nat × Nat) :=
  match splitOnDot s.data with
  | [ds, ms, ys] =>
    match natOfDigits ds Option.none, natOfDigits ms Option.none,
          natOfDigits ys Option.none with
    | some d, some m, some y =>
      if ds.length ≤ 2 && 1 ≤ d && d ≤ 31
         && ms.length ≤ 2 && 1 ≤ m && m ≤ 12
         && ys.length == 4 && 1 ≤ y && d ≤ daysInMonth y m
      then some (d, m, y) else Option.none
    | _, _, _ => Option.none
  | _ => Option.none

/-- `BaseField._validate_date(value, birthday)`. `strptime` raises
`TypeError` for a non-string argument and only `ValueError` is caught, so
the `TypeError` escapes; an unparseable string returns `false`; for
`birthday = true` the parsed year must satisfy
`now.year - date.year < DELTA_YEAR`. -/
def validate_date (nowYear : Int) (value : PyVal) (birthday : Bool) :
    Except PyErr Bool :=
  match value with
  | .str s =>
    match parseDMY s with
    | some (_, _, y) =>
      if birthday then .ok (decide (nowYear - (y : Int) < DELTA_YEAR))
      else .ok true
    | Option.none => .ok false
  | _ => .error .typeError

/-! ## Field validators (`is_valid`)

Each validator is `PyVal → Except PyErr Bool`: an `.ok b` is the boolean
the Python method returns, an `.error e` a raised exception. -/

/-- `CharField.is_valid`: `isinstance(value, str)`. -/
def CharField_is_valid (v : PyVal) : Except PyErr Bool :=
  .ok (isInstStr v)

/-- `ArgumentsField.is_valid`: `isinstance(value, dict)`. -/
def ArgumentsField_is_valid (v : PyVal) : Except PyErr Bool :=
  .ok (match v with
    | .dict _ => true
    | _ => false)

/-- `EmailField.is_valid`: a string that contains `@`. -/
def EmailField_is_valid (v : PyVal) : Except PyErr Bool :=
  .ok (match v with
    | .str s => s.data.contains '@'
    | _ => false)

/-- `PhoneField.is_valid`: a string or an int whose string form has
exactly 11 characters and starts with `7`. -/
def PhoneField_is_valid (v : PyVal) : Except PyErr Bool :=
  .ok (match v with
    | .str s => (pyStr (.str s)).data.length == 11 && (pyStr (.str s)).data.head? == some '7'
    | .int n => (pyStr (.int n)).data.length == 11 && (pyStr (.int n)).data.head? == some '7'
    | .bool b => (pyStr (.bool b)).data.length == 11 && (pyStr (.bool b)).data.head? == some '7'
    | _ => false)

/-- `DateField.is_valid`: `_validate_date(value)`. -/
def DateField_is_valid (nowYear : Int) (v : PyVal) : Except PyErr Bool :=
  validate_date nowYear v false

/-- `BirthDayField.is_valid`: `_validate_date(value, True)`. -/
def BirthDayField_is_valid (nowYear : Int) (v : PyVal) : Except PyErr Bool :=
  validate_date nowYear v true

/-- `GenderField.is_valid`: `value in [UNKNOWN, MALE, FEMALE]`, that is
`value in [0, 1, 2]` under Python `==` (so `False == 0` and `True == 1`
make both booleans members). -/
def GenderField_is_valid (v : PyVal) : Except PyErr Bool :=
  .ok (match v with
    | .int n => n == 0 || n == 1 || n == 2
    | .bool _ => true
    | _ => false)

/-- `ClientIDsField.is_valid`: a truthy list all of whose elements satisfy
`isinstance(element, int)`. -/
def ClientIDsField_is_valid (v : PyVal) : Except PyErr Bool :=
  .ok (match v with
    | .list xs => !xs.isEmpty && xs.all isInstInt
    | _ => false)


end ScoringApi

namespace ScoringApi

/-! ## The schema engine (`BaseModel`)

`BaseModel.__init__` collects the instance's members through
`inspect.getmembers` (alphabetically sorted; routines and dunder names
dropped), runs `_validate_model` over them, and then, when there was no
per-field error, applies the optional `root_validate` predicate to the set
of set fields; on full success it replaces the instance dictionary with
the validated `values` (so the `error` attribute is afterwards read from
`values`). -/

/-- A declared field: `BaseField(required, nullable)` plus its `is_valid`. -/
structure FieldSpec where
  required : Bool
  nullable : Bool
  is_valid : PyVal → Except PyErr Bool

/-- One entry of `_get_class_fields`: a declared `BaseField`, or a plain
non-routine member (`error`, `is_admin`, a `None`-valued `root_validate`)
that `_validate_model` merely copies through. -/
inductive Member where
  | field (f : FieldSpec)
  | plain

/-- The error kinds of src/api.py (`MissingError`, `RequiredError`,
`FieldTypeError`). -/
inductive ErrKind where
  | missing
  | requiredEmpty
  | fieldType
deriving DecidableEq, Repr

/-- `BaseError`: an error kind together with the offending field name. -/
structure BaseError where
  kind : ErrKind
  field : String
deriving DecidableEq, Repr

/-- `error_text` of the three error classes. -/
def error_text : ErrKind → String
  | .missing => "Пропущены обязательные поля:"
  | .requiredEmpty => "Следующие поля не должны быть пустыми:"
  | .fieldType => "Поля имеют не верный тип:"

/-- `input_data.get(name, None)`. -/
def dictGet (d : List (String × PyVal)) (name : String) : PyVal :=
  (d.lookup name).getD .none

/-- The outcome of `_validate_model`: the accepted `values`, the
`fields_set` of names bound to a non-`None` value, and the error list, in
member order. -/
structure VRes where
  values : List (String × PyVal)
  fields_set : List String
  errors : List BaseError

/-- One iteration of the `_validate_model` loop for a declared field:
missing required field, empty non-nullable field, truthy value failing
`is_valid` (which may raise), or acceptance. -/
inductive StepRes where
  | err (e : ErrKind)
  | accept
  | raise (e : PyErr)

/-- The branch structure of the `_validate_model` loop body on a
`BaseField` member. -/
def fieldStep (f : FieldSpec) (v : PyVal) : StepRes :=
  if isNone v && f.required then .err .missing
  else if !truthy v && !f.nullable then .err .requiredEmpty
  else if truthy v then
    match f.is_valid v with
    | .error e => .raise e
    | .ok true => .accept
    | .ok false => .err .fieldType
  else .accept

/-- `BaseModel._validate_model`: every member is checked independently (an
erroring field is recorded and the loop continues with the next member); a
raising validator aborts the whole pass with that exception. -/
def validateFields (input : List (String × PyVal)) :
    List (String × Member) → Except PyErr VRes
  | [] => .ok ⟨[], [], []⟩
  | (name, m) :: rest =>
    match m with
    | .plain =>
      match validateFields input rest with
      | .error e => .error e
      | .ok r =>
        .ok ⟨(name, dictGet input name) :: r.values,
             (if isNone (dictGet input name) then r.fields_set
              else name :: r.fields_set),
             r.errors⟩
    | .field f =>
      match fieldStep f (dictGet input name) with
      | .raise e => .error e
      | .err k =>
        match validateFields input rest with
        | .error e => .error e
        | .ok r => .ok ⟨r.values, r.fields_set, ⟨k, name⟩ :: r.errors⟩
      | .accept =>
        match validateFields input rest with
        | .error e => .error e
        | .ok r =>
          .ok ⟨(name, dictGet input name) :: r.values,
               (if isNone (dictGet input name) then r.fields_set
                else name :: r.fields_set),
               r.errors⟩

/-- The error a constructed model carries: a `ValidationError` with the
per-field errors, a `ConstrainError`, or — after a fully successful
validation replaced the instance dictionary by `values` — whatever value
`values` holds under the key `error` (normally `None`). -/
inductive ErrorSlot where
  | validation (errors : List BaseError)
  | constrain
  | value (v : PyVal)

/-- Truthiness of the `error` attribute as `method_handler` tests it:
exception objects are truthy, a passed-through value by `truthy`. -/
def errorTruthy : ErrorSlot → Bool
  | .validation _ => true
  | .constrain => true
  | .value v => truthy v

/-- The constructed model: `values` and `fields_set` as exposed on full
success (both empty when an error left the instance dictionary
unreplaced), and the `error` slot. -/
structure PyModel where
  values : List (String × PyVal)
  fields_set : List String
  errorSlot : ErrorSlot

/-- `BaseModel.__init__`: per-field validation, then — only when that
produced no error — the optional `root_validate` over `fields_set`, then
on success the instance dictionary is replaced by `values`. -/
def mkModel (schema : List (String × Member))
    (root_validate : Option (List String → Bool))
    (input : List (String × PyVal)) : Except PyErr PyModel :=
  match validateFields input schema with
  | .error e => .error e
  | .ok r =>
    if !r.errors.isEmpty then
      .ok ⟨[], [], .validation r.errors⟩
    else
      match root_validate with
      | some f =>
        if !f r.fields_set then .ok ⟨[], [], .constrain⟩
        else .ok ⟨r.values, r.fields_set, .value (dictGet r.values "error")⟩
      | Option.none =>
        .ok ⟨r.values, r.fields_set, .value (dictGet r.values "error")⟩

/-- `REQUIRED_PAIR` from src/api.py. -/
def REQUIRED_PAIR : List (List String) :=
  [["last_name", "first_name"], ["birthday", "gender"], ["email", "phone"]]

/-- `validate_on_line_score_fields`: at least one pair of `REQUIRED_PAIR`
is a subset of `fields_set`. -/
def validate_on_line_score_fields (fields_set : List String) : Bool :=
  REQUIRED_PAIR.any (fun pair => pair.all (fun n => fields_set.contains n))

/-! ## The concrete schemas

Each list is `inspect.getmembers` of a freshly constructed instance:
alphabetically sorted, routines and dunder names dropped. The non-field
members that survive the filter are `error` (set to `None` before the
members are collected), `is_admin` (the property, evaluated to `False` on
the not-yet-validated instance) on `MethodRequest`, and `root_validate`
on the classes where it is `None` rather than a bound function. -/

/-- `OnlineScoreRequest` members (`root_validate` is a bound routine here,
so it is filtered out). -/
def OnlineScoreRequest_fields (nowYear : Int) : List (String × Member) :=
  [("birthday", .field ⟨false, true, BirthDayField_is_valid nowYear⟩),
   ("email", .field ⟨false, true, EmailField_is_valid⟩),
   ("error", .plain),
   ("first_name", .field ⟨false, true, CharField_is_valid⟩),
   ("gender", .field ⟨false, true, GenderField_is_valid⟩),
   ("last_name", .field ⟨false, true, CharField_is_valid⟩),
   ("phone", .field ⟨false, true, PhoneField_is_valid⟩)]

/-- `ClientsInterestsRequest` members (`root_validate` is `None` here and
survives the routine filter as a plain member). -/
def ClientsInterestsRequest_fields (nowYear : Int) : List (String × Member) :=
  [("client_ids", .field ⟨true, false, ClientIDsField_is_valid⟩),
   ("date", .field ⟨false, true, DateField_is_valid nowYear⟩),
   ("error", .plain),
   ("root_validate", .plain)]

/-- `MethodRequest` members. -/
def MethodRequest_fields : List (String × Member) :=
  [("account", .field ⟨false, true, CharField_is_valid⟩),
   ("arguments", .field ⟨true, true, ArgumentsField_is_valid⟩),
   ("error", .plain),
   ("is_admin", .plain),
   ("login", .field ⟨true, true, CharField_is_valid⟩),
   ("method", .field ⟨true, false, CharField_is_valid⟩),
   ("root_validate", .plain),
   ("token", .field ⟨true, true, CharField_is_valid⟩)]

/-- `OnlineScoreRequest(**input)`. -/
def mkOnlineScoreRequest (nowYear : Int) (input : List (String × PyVal)) :
    Except PyErr PyModel :=
  mkModel (OnlineScoreRequest_fields nowYear) (some validate_on_line_score_fields) input

/-- `ClientsInterestsRequest(**input)`. -/
def mkClientsInterestsRequest (nowYear : Int) (input : List (String × PyVal)) :
    Except PyErr PyModel :=
  mkModel (ClientsInterestsRequest_fields nowYear) Option.none input

/-- `MethodRequest(**input)`. -/
def mkMethodRequest (input : List (String × PyVal)) : Except PyErr PyModel :=
  mkModel MethodRequest_fields Option.none input

end ScoringApi

namespace ScoringApi

/-! ## Error message rendering -/

/-- Python `repr` of a list of field-name strings, as an f-string embeds
it: `['a', 'b']`. -/
def renderFields (fs : List String) : String :=
  "[" ++ String.intercalate ", " (fs.map (fun f => "'" ++ f ++ "'")) ++ "]"

/-- Insert a field under its kind text, preserving the insertion order of
kinds and of fields within a kind (the dict built in
`ValidationError.get_message`). -/
def groupInsert (t : String) (f : String) :
    List (String × List String) → List (String × List String)
  | [] => [(t, [f])]
  | (t2, fs) :: rest =>
    if t = t2 then (t2, fs ++ [f]) :: rest
    else (t2, fs) :: groupInsert t f rest

/-- The grouped error dict of `ValidationError.get_message`. -/
def groupErrors (errs : List BaseError) : List (String × List String) :=
  errs.foldl (fun acc e => groupInsert (error_text e.kind) e.field acc) []

/-- `ValidationError.get_message`: each kind's text followed by the list
of its fields, kinds joined by a comma and space. -/
def ValidationError_get_message (errs : List BaseError) : String :=
  String.intercalate ", "
    ((groupErrors errs).map (fun p => p.1 ++ " " ++ renderFields p.2))

/-- `ConstrainError.get_message`. (The embedded `REQUIRED_PAIR` renders
Python sets; the set element order shown is the one the repository's own
integration test asserts.) -/
def ConstrainError_message : String :=
  "Должна присутствовать хотя бы одна пара полей: [\x7b'last_name', 'first_name'\x7d, \x7b'birthday', 'gender'\x7d, \x7b'email', 'phone'\x7d]"

/-- `error.get_message()` as `method_handler` calls it on the `error`
attribute: the two exception classes render their message, while a
passed-through plain value has no `get_message` attribute and raises
`AttributeError`. -/
def ErrorSlot_get_message : ErrorSlot → Except PyErr String
  | .validation errs => .ok (ValidationError_get_message errs)
  | .constrain => .ok ConstrainError_message
  | .value _ => .error .attributeError

/-! ## Authentication (`check_auth`) -/

/-- The ambient external world of a request: the clock, the hash function
and the scoring module (src/scoring.py is not part of the repository
snapshot; both functions stay abstract because no settled claim depends
on their bodies). -/
structure Env where
  sha512 : String → String
  nowYear : Int
  nowHour : String
  get_score : List (String × PyVal) → PyVal
  get_interests : PyVal → PyVal

/-- Python `+` for the values that can reach
`request.account + request.login + SALT`: strings concatenate, numbers
add, lists concatenate, everything else (`None` in particular) raises
`TypeError`. -/
def pyAdd : PyVal → PyVal → Except PyErr PyVal
  | .str a, .str b => .ok (.str (a ++ b))
  | .int a, .int b => .ok (.int (a + b))
  | .bool a, .bool b => .ok (.int ((if a then 1 else 0) + (if b then 1 else 0)))
  | .bool a, .int b => .ok (.int ((if a then 1 else 0) + b))
  | .int a, .bool b => .ok (.int (a + (if b then 1 else 0)))
  | .list a, .list b => .ok (.list (a ++ b))
  | _, _ => .error .typeError

/-- `check_auth(request)`: the admin digest hashes
`now.strftime("%Y%m%d%H") + ADMIN_SALT`, the user digest hashes
`request.account + request.login + SALT` — a `+` that raises `TypeError`
when `account` is `None` (an absent optional field) or when either
operand is a non-string; the final `digest == request.token` comparison
is Python `==` against the token value. -/
def check_auth (env : Env) (req : PyModel) : Except PyErr Bool :=
  if pyEqStr (dictGet req.values "login") ADMIN_LOGIN then
    .ok (pyEqStr (dictGet req.values "token")
      (env.sha512 (env.nowHour ++ ADMIN_SALT)))
  else
    match pyAdd (dictGet req.values "account") (dictGet req.values "login") with
    | .error e => .error e
    | .ok s1 =>
      match pyAdd s1 (.str SALT) with
      | .error e => .error e
      | .ok (.str msg) =>
        .ok (pyEqStr (dictGet req.values "token") (env.sha512 msg))
      | .ok _ => .error .typeError

/-! ## Dispatcher (`method_handler`, `online_score`, `clients_interests`) -/

/-- A handler outcome: a payload object on success, or an error-message
string. -/
inductive Resp where
  | payload (v : PyVal)
  | msg (s : String)

/-- The `ERRORS` table of src/api.py. -/
def ERRORS_msg (code : Nat) : String :=
  if code = 400 then "Bad Request"
  else if code = 403 then "Forbidden"
  else if code = 404 then "Not Found"
  else if code = 422 then "Invalid Request"
  else "Internal Server Error"

/-- `get_error(error_code, message=None)`: a truthy message is returned as
is, otherwise the default text for the code. -/
def get_error (error_code : Nat) (message : Option String) : Resp × Nat :=
  match message with
  | some m =>
    if m.data.isEmpty then (.msg (ERRORS_msg error_code), error_code)
    else (.msg m, error_code)
  | Option.none => (.msg (ERRORS_msg error_code), error_code)

/-- `data.arguments if isinstance(data.arguments, dict) else {}` from
`get_arguments_and_error`. -/
def argumentsDict (data : PyModel) : List (String × PyVal) :=
  match dictGet data.values "arguments" with
  | .dict d => d
  | _ => []

/-- `online_score(data, ctx, store)`: builds the `OnlineScoreRequest`, and
computes the score — `ADMIN_SCORE` when the caller's login is the admin
login, otherwise the external `get_score` applied to the validated values
restricted to the set fields (an empty mapping when validation failed,
because the instance dictionary was never replaced). The context update
only feeds logging and is not modelled. -/
def online_score (env : Env) (data : PyModel) :
    Except PyErr (PyVal × ErrorSlot) :=
  match mkOnlineScoreRequest env.nowYear (argumentsDict data) with
  | .error e => .error e
  | .ok a =>
    .ok (.dict [("score",
           if !pyEqStr (dictGet data.values "login") ADMIN_LOGIN then
             env.get_score (a.values.filter (fun p => a.fields_set.contains p.1))
           else .int ADMIN_SCORE)],
         a.errorSlot)

/-- `clients_interests(data, ctx, store)`: builds the
`ClientsInterestsRequest` and asks `get_interests` for every client id
(no id at all when validation failed: the class attribute `client_ids`
is an empty `ClientIDsField` list). -/
def clients_interests (env : Env) (data : PyModel) :
    Except PyErr (PyVal × ErrorSlot) :=
  match mkClientsInterestsRequest env.nowYear (argumentsDict data) with
  | .error e => .error e
  | .ok a =>
    .ok (.dict ((match dictGet a.values "client_ids" with
                 | .list xs => xs
                 | _ => []).map (fun i => (pyStr i, env.get_interests i))),
         a.errorSlot)

/-- The tail of `method_handler` for a dispatched method's outcome:
`(response, OK) if not error else get_error(INVALID_REQUEST,
error.get_message())`, where `get_message` on a passed-through plain
value raises `AttributeError`. -/
def methodOutcome (out : Except PyErr (PyVal × ErrorSlot)) :
    Except PyErr (Resp × Nat) :=
  match out with
  | .error e => .error e
  | .ok (resp, err) =>
    if errorTruthy err then
      match ErrorSlot_get_message err with
      | .error e => .error e
      | .ok m => .ok (get_error INVALID_REQUEST (some m))
    else .ok (.payload resp, OK)

/-- `method_handler(request, ctx, store)` for `request = {"body": body}`:
a falsy body yields 422; the envelope is validated as a `MethodRequest`
(a truthy `error` attribute yields 422 with the formatted message);
authentication failure yields 403; the method name is looked up among the
two registered handlers, a `KeyError` being mapped to 400; finally the
dispatched method's outcome goes through `methodOutcome`. Exceptions
other than that `KeyError` escape the handler (`Except.error`). -/
def method_handler (env : Env) (body : PyVal) : Except PyErr (Resp × Nat) :=
  if !truthy body then .ok (get_error INVALID_REQUEST Option.none)
  else
    match body with
    | .dict entries =>
      match mkMethodRequest entries with
      | .error e => .error e
      | .ok data =>
        if errorTruthy data.errorSlot then
          match ErrorSlot_get_message data.errorSlot with
          | .error e => .error e
          | .ok m => .ok (get_error INVALID_REQUEST (some m))
        else
          match check_auth env data with
          | .error e => .error e
          | .ok auth =>
            if !auth then .ok (get_error FORBIDDEN Option.none)
            else
              match dictGet data.values "method" with
              | .str s =>
                if s = "online_score" then
                  methodOutcome (online_score env data)
                else if s = "clients_interests" then
                  methodOutcome (clients_interests env data)
                else .ok (get_error BAD_REQUEST Option.none)
              | .list _ => .error .typeError
              | .dict _ => .error .typeError
              | _ => .ok (get_error BAD_REQUEST Option.none)
    | _ => .error .typeError

end ScoringApi

namespace ScoringApi

/-! ## The resilient store client (src/store.py)

`trying_factory(error)` wraps a function: on the given error class it
retries, sleeping `count * 2` seconds, and re-raises once the count
exceeds `MAX_RETRIES`; any other exception propagates at once. The
wrapped callable is modelled as `f : Nat → Except PyErr α`, the behaviour
of its n-th invocation (0-based), and the wrapper returns the final
outcome together with the list of sleeps performed. -/

/-- `MAX_RETRIES` from src/store.py. -/
def MAX_RETRIES : Nat := 3

/-- The retry loop of `trying_factory`, at call number `call` with
`retries` re-raises still allowed before the count exceeds the cap. -/
def tryingRun (isTransient : PyErr → Bool) (f : Nat → Except PyErr α) :
    Nat → Nat → Except PyErr α × List Nat
  | call, retries =>
    match f call with
    | .ok v => (.ok v, [])
    | .error e =>
      if isTransient e then
        match retries with
        | 0 => (.error e, [])
        | r + 1 =>
          let p := tryingRun isTransient f (call + 1) r
          (p.1, (call + 1) * 2 :: p.2)
      else (.error e, [])

/-- `trying_factory(error)(func)` applied once: the loop starting at
count 0 with the full retry budget. -/
def trying_factory (isTransient : PyErr → Bool) (f : Nat → Except PyErr α) :
    Except PyErr α × List Nat :=
  tryingRun isTransient f 0 MAX_RETRIES

/-- `redis.exceptions.RedisError`, the transient error class
`RedisStore` passes to `trying_factory`. -/
def isRedisError : PyErr → Bool
  | .redisError => true
  | _ => false

/-- A nonnegative decimal float as `float(bytes.decode())` produces it
from the stored text: mantissa and number of fractional digits (the value
is `mantissa / 10 ^ scale`; Python float truthiness is `mantissa ≠ 0`).
Signs, exponents and the non-finite spellings do not occur as cached
score values and are not modelled. -/
structure PyFloat where
  mantissa : Nat
  scale : Nat
deriving DecidableEq, Repr

/-- `float(s)` on a nonnegative decimal string: digits with at most one
dot, at least one digit overall; anything else raises `ValueError`. -/
def pyFloatOfString (s : String) : Option PyFloat :=
  match splitOnDot s.data with
  | [ip] => (natOfDigits ip Option.none).map (fun n => ⟨n, 0⟩)
  | [ip, fp] =>
    if ip.isEmpty && fp.isEmpty then Option.none
    else if ip.all (fun c => (digitVal c).isSome)
            && fp.all (fun c => (digitVal c).isSome) then
      some ⟨(natOfDigits ip (some 0)).getD 0 * 10 ^ fp.length
              + (natOfDigits fp (some 0)).getD 0,
            fp.length⟩
    else Option.none
  | _ => Option.none

/-- The behaviour of the raw `self.store.get(key)` on its n-th
invocation: a connectivity failure (`RedisError`), or the stored bytes
(`Option String`, `none` when the key is absent). -/
def RawGet := Nat → Except PyErr (Option String)

/-- The body wrapped by `trying_factory` in `RedisStore.cache_get`: fetch
the bytes; a truthy (non-empty) byte string is decoded and parsed as a
float (`ValueError` escaping the wrapper, since it is no `RedisError`),
anything else falls through to the implicit `return None`. -/
def cache_get_once (conn : RawGet) (call : Nat) :
    Except PyErr (Option PyFloat) :=
  match conn call with
  | .error e => .error e
  | .ok (some bytes) =>
    if !bytes.data.isEmpty then
      match pyFloatOfString bytes with
      | some v => .ok (some v)
      | Option.none => .error .valueError
    else .ok Option.none
  | .ok Option.none => .ok Option.none

/-- `RedisStore.cache_get(key)`: the body above under
`trying_factory(redis.exceptions.RedisError)`. -/
def cache_get (conn : RawGet) : Except PyErr (Option PyFloat) × List Nat :=
  trying_factory isRedisError (cache_get_once conn)

/-- `RedisStore.get(key)`: `if value := self.cache_get(key): return
value; raise StoreKeyNotFound` — the walrus tests Python truthiness of
the float, so both `None` and a zero float raise `StoreKeyNotFound`. -/
def RedisStore_get (conn : RawGet) : Except PyErr PyFloat :=
  match (cache_get conn).1 with
  | .ok (some v) => if v.mantissa != 0 then .ok v else .error .storeKeyNotFound
  | .ok Option.none => .error .storeKeyNotFound
  | .error e => .error e

end ScoringApi

namespace ScoringApi

/-! ## Derived definitions used by the theorems -/

/-- The error (if any) that `_validate_model` records for one member of
the schema, read off independently of all other members. -/
def memberError (input : List (String × PyVal)) : String × Member → Option BaseError
  | (_, .plain) => Option.none
  | (name, .field f) =>
    match fieldStep f (dictGet input name) with
    | .err k => some ⟨k, name⟩
    | _ => Option.none

/-- The order in which `OnlineScoreRequest` declares its fields in the
source (the order the spec claims error messages follow). -/
def OnlineScoreRequest_declaration_order : List String :=
  ["first_name", "last_name", "email", "phone", "birthday", "gender"]

/-- The distinct elements of a list, in order of first occurrence. -/
def firstOcc : List String → List String
  | [] => []
  | x :: xs => x :: (firstOcc xs).filter (fun y => y != x)

/-- The fields of all errors of the kind rendered as `t`, in list order. -/
def fieldsOfKind (t : String) (errs : List BaseError) : List String :=
  (errs.filter (fun e => error_text e.kind == t)).map (fun e => e.field)

/-- Stated from the spec's words, for comparison with the code's
`ValidationError.get_message`: the error groups, one per kind in order of
first occurrence, each carrying the affected fields in error-list order. -/
def specGroups (errs : List BaseError) : List (String × List String) :=
  (firstOcc (errs.map (fun e => error_text e.kind))).map
    (fun t => (t, fieldsOfKind t errs))

/-- Stated from the spec's words: render each kind's description followed
by its field-name list, kinds joined with a comma and space. -/
def specRender (errs : List BaseError) : String :=
  String.intercalate ", "
    ((specGroups errs).map (fun p => p.1 ++ " " ++ renderFields p.2))

/-! ## Concrete sample requests used by witnesses -/

/-- A sample external world: the hash of anything is `"t"`, the clock
reads year 2026, hour string `"2026101216"`, the external scoring module
returns constants. -/
def sampleEnv : Env :=
  ⟨fun _ => "t", 2026, "2026101216", fun _ => .int 0, fun _ => .none⟩

/-- A valid envelope (token matches `sampleEnv`) whose method name is the
unregistered `"foo"`. -/
def bodyUnknownMethod : List (String × PyVal) :=
  [("account", .str "acc"), ("arguments", .dict []), ("login", .str "user"),
   ("method", .str "foo"), ("token", .str "t")]

/-- The `MethodRequest` built from `bodyUnknownMethod`. -/
def modelUnknownMethod : PyModel :=
  ⟨[("account", .str "acc"), ("arguments", .dict []), ("error", .none),
    ("is_admin", .none), ("login", .str "user"), ("method", .str "foo"),
    ("root_validate", .none), ("token", .str "t")],
   ["account", "arguments", "login", "method", "token"],
   .value .none⟩

/-- The admin `online_score` envelope of the spec's end-to-end example:
`{login: "admin", method: "online_score", token: <valid>, arguments:
{birthday: "20.04.1970", gender: 2}}`. -/
def bodyAdminScore : List (String × PyVal) :=
  [("arguments", .dict [("birthday", .str "20.04.1970"), ("gender", .int 2)]),
   ("login", .str "admin"), ("method", .str "online_score"), ("token", .str "t")]

/-- The `MethodRequest` built from `bodyAdminScore`. -/
def modelAdminScore : PyModel :=
  ⟨[("account", .none),
    ("arguments", .dict [("birthday", .str "20.04.1970"), ("gender", .int 2)]),
    ("error", .none), ("is_admin", .none), ("login", .str "admin"),
    ("method", .str "online_score"), ("root_validate", .none), ("token", .str "t")],
   ["arguments", "login", "method", "token"],
   .value .none⟩

/-- The `OnlineScoreRequest` built from `bodyAdminScore`'s arguments. -/
def argsAdminScore : PyModel :=
  ⟨[("birthday", .str "20.04.1970"), ("email", .none), ("error", .none),
    ("first_name", .none), ("gender", .int 2), ("last_name", .none),
    ("phone", .none)],
   ["birthday", "gender"],
   .value .none⟩

/-- An envelope that validates although its optional `account` is absent:
`account` then holds `None` when `check_auth` reads it. -/
def bodyAbsentAccount : List (String × PyVal) :=
  [("arguments", .dict []), ("login", .str "user"), ("method", .str "m"),
   ("token", .str "t")]

/-- The `MethodRequest` built from `bodyAbsentAccount`. -/
def modelAbsentAccount : PyModel :=
  ⟨[("account", .none), ("arguments", .dict []), ("error", .none),
    ("is_admin", .none), ("login", .str "user"), ("method", .str "m"),
    ("root_validate", .none), ("token", .str "t")],
   ["arguments", "login", "method", "token"],
   .value .none⟩

end ScoringApi

namespace ScoringApi

/-- Lexicographic code-point comparison of character lists (the order
`sorted` and `<` give Python strings; on the ASCII member names this is
alphabetical order). -/
def strLtChars : List Char → List Char → Bool
  | [], [] => false
  | [], _ :: _ => true
  | _ :: _, [] => false
  | a :: as, b :: bs =>
    if a.toNat < b.toNat then true
    else if b.toNat < a.toNat then false
    else strLtChars as bs

/-- Lexicographic code-point comparison of strings. -/
def strLt (a b : String) : Bool := strLtChars a.data b.data

end ScoringApi

namespace ScoringApi

theorem memberError_field {input : List (String × PyVal)} :
    ∀ {p : String × Member} {e : BaseError},
      memberError input p = some e → e.field = p.1 := by
  intro p e h
  obtain ⟨name, m⟩ := p
  cases m with
  | plain => simp [memberError] at h
  | field f =>
    simp only [memberError] at h
    cases hs : fieldStep f (dictGet input name) with
    | err k => rw [hs] at h; injection h with h; subst h; rfl
    | accept => rw [hs] at h; exact absurd h (by simp)
    | raise e2 => rw [hs] at h; exact absurd h (by simp)

theorem validateFields_errors_eq (input : List (String × PyVal)) :
    ∀ (schema : List (String × Member)) (r : VRes),
      validateFields input schema = .ok r →
      r.errors = schema.filterMap (memberError input) := by
  intro schema
  induction schema with
  | nil =>
    intro r h
    simp only [validateFields] at h
    injection h with h
    subst h
    rfl
  | cons p rest ih =>
    obtain ⟨name, m⟩ := p
    intro r h
    cases m with
    | plain =>
      simp only [validateFields] at h
      cases hrec : validateFields input rest with
      | error e => rw [hrec] at h; exact absurd h (by simp)
      | ok r2 =>
        rw [hrec] at h
        injection h with h
        subst h
        simpa [memberError] using ih r2 hrec
    | field f =>
      simp only [validateFields] at h
      cases hs : fieldStep f (dictGet input name) with
      | raise e => rw [hs] at h; exact absurd h (by simp)
      | err k =>
        rw [hs] at h
        cases hrec : validateFields input rest with
        | error e => rw [hrec] at h; exact absurd h (by simp)
        | ok r2 =>
          rw [hrec] at h
          injection h with h
          subst h
          simp [memberError, hs, ih r2 hrec]
      | accept =>
        rw [hs] at h
        cases hrec : validateFields input rest with
        | error e => rw [hrec] at h; exact absurd h (by simp)
        | ok r2 =>
          rw [hrec] at h
          injection h with h
          subst h
          simp [memberError, hs, ih r2 hrec]

theorem fieldStep_accept_of_nullable_falsy (f : FieldSpec) (v : PyVal)
    (hn : f.nullable = true) (hnone : isNone v = false) (ht : truthy v = false) :
    fieldStep f v = .accept := by
  simp [fieldStep, hn, hnone, ht]

/-- C1: amended. Every validator except the two date-based ones returns a
boolean on every input; the date and birthday validators return a boolean
on every string but raise `TypeError` on every non-string value (only
`ValueError` is caught around `strptime`); and the birthday validator's
answer depends on the current year, so it is pure only relative to a
fixed clock (the repository's own unit-test value "20.04.1953" is valid
in 2022 and invalid in 2026). -/
theorem validators_total_except_date_fields :
    (∀ v, ∃ b, CharField_is_valid v = .ok b)
  ∧ (∀ v, ∃ b, ArgumentsField_is_valid v = .ok b)
  ∧ (∀ v, ∃ b, EmailField_is_valid v = .ok b)
  ∧ (∀ v, ∃ b, PhoneField_is_valid v = .ok b)
  ∧ (∀ v, ∃ b, GenderField_is_valid v = .ok b)
  ∧ (∀ v, ∃ b, ClientIDsField_is_valid v = .ok b)
  ∧ (∀ (y : Int) (s : String), ∃ b, DateField_is_valid y (.str s) = .ok b)
  ∧ (∀ (y : Int) (s : String), ∃ b, BirthDayField_is_valid y (.str s) = .ok b)
  ∧ (∀ (y : Int) (v : PyVal), isInstStr v = false →
       DateField_is_valid y v = .error .typeError)
  ∧ (∀ (y : Int) (v : PyVal), isInstStr v = false →
       BirthDayField_is_valid y v = .error .typeError)
  ∧ BirthDayField_is_valid 2022 (.str "20.04.1953") = .ok true
  ∧ BirthDayField_is_valid 2026 (.str "20.04.1953") = .ok false := by
  refine ⟨fun v => ⟨_, rfl⟩, fun v => ⟨_, rfl⟩, fun v => ⟨_, rfl⟩, fun v => ⟨_, rfl⟩,
    fun v => ⟨_, rfl⟩, fun v => ⟨_, rfl⟩, ?_, ?_, ?_, ?_, rfl, rfl⟩
  · intro y s
    simp only [DateField_is_valid, validate_date]
    cases parseDMY s with
    | none => exact ⟨false, rfl⟩
    | some t => exact ⟨true, rfl⟩
  · intro y s
    simp only [BirthDayField_is_valid, validate_date]
    cases parseDMY s with
    | none => exact ⟨false, rfl⟩
    | some t => obtain ⟨d, m, yy⟩ := t; exact ⟨_, rfl⟩
  · intro y v h
    cases v <;> simp_all [isInstStr, DateField_is_valid, validate_date]
  · intro y v h
    cases v <;> simp_all [isInstStr, BirthDayField_is_valid, validate_date]

/-- C1: counterexample to the claim as stated — `DateField.is_valid` does
not return a boolean on the integer `123`: it raises `TypeError`. -/
theorem date_validator_raises_TypeError_cex :
    DateField_is_valid 2026 (.int 123) = .error .typeError
  ∧ BirthDayField_is_valid 2026 (.int 123) = .error .typeError
  ∧ ¬ ∃ b, DateField_is_valid 2026 (.int 123) = .ok b := by
  refine ⟨rfl, rfl, ?_⟩
  rintro ⟨b, hb⟩
  exact absurd hb (by simp [DateField_is_valid, validate_date])

/-- C9: the client-ids validator accepts exactly the non-empty lists all
of whose elements are Python ints (`isinstance(·, int)`), with the
spec's four examples. -/
theorem client_ids_validator_spec :
    (∀ v, ClientIDsField_is_valid v = .ok true ↔
       ∃ xs, v = .list xs ∧ xs ≠ [] ∧ ∀ x ∈ xs, isInstInt x = true)
  ∧ ClientIDsField_is_valid (.list [.int 1, .int 2]) = .ok true
  ∧ ClientIDsField_is_valid (.list []) = .ok false
  ∧ ClientIDsField_is_valid (.list [.str "1", .str "2"]) = .ok false
  ∧ ClientIDsField_is_valid (.int 1) = .ok false := by
  refine ⟨?_, rfl, rfl, rfl, rfl⟩
  intro v
  cases v with
  | list xs =>
    simp [ClientIDsField_is_valid, List.all_eq_true, List.isEmpty_iff]
  | none => simp [ClientIDsField_is_valid]
  | bool b => simp [ClientIDsField_is_valid]
  | int n => simp [ClientIDsField_is_valid]
  | str s => simp [ClientIDsField_is_valid]
  | dict es => simp [ClientIDsField_is_valid]

/-- C10: a non-`None` falsy value on a nullable field is accepted without
the shape validator being consulted, lands in the validated values and
counts as a set field: so empty first and last names satisfy the
required-pair constraint, and `gender = 0` passes whatever the gender
validator would say. -/
theorem nullable_falsy_accepted_spec :
    (∀ (f : FieldSpec) (v : PyVal), f.nullable = true → isNone v = false →
       truthy v = false → fieldStep f v = .accept)
  ∧ (∀ (g : PyVal → Except PyErr Bool) (req : Bool),
       fieldStep ⟨req, true, g⟩ (.int 0) = .accept)
  ∧ mkOnlineScoreRequest 2026 [("first_name", .str ""), ("last_name", .str "")]
      = .ok ⟨[("birthday", .none), ("email", .none), ("error", .none),
              ("first_name", .str ""), ("gender", .none), ("last_name", .str ""),
              ("phone", .none)],
             ["first_name", "last_name"], .value .none⟩
  ∧ mkOnlineScoreRequest 2026 [("birthday", .str "20.04.1970"), ("gender", .int 0)]
      = .ok ⟨[("birthday", .str "20.04.1970"), ("email", .none), ("error", .none),
              ("first_name", .none), ("gender", .int 0), ("last_name", .none),
              ("phone", .none)],
             ["birthday", "gender"], .value .none⟩ := by
  refine ⟨fieldStep_accept_of_nullable_falsy, ?_, rfl, rfl⟩
  intro g req
  exact fieldStep_accept_of_nullable_falsy ⟨req, true, g⟩ (.int 0) rfl rfl rfl

end ScoringApi

namespace ScoringApi

theorem tryingRun_ok {isTr : PyErr → Bool} {f : Nat → Except PyErr α} :
    ∀ (k c r : Nat) (v : α),
      (∀ i, i < k → ∃ e, f (c + i) = .error e ∧ isTr e = true) →
      f (c + k) = .ok v → k ≤ r →
      tryingRun isTr f c r = (.ok v, (List.range k).map (fun i => (c + i + 1) * 2)) := by
  intro k
  induction k with
  | zero =>
    intro c r v _ hok _
    simp only [Nat.add_zero] at hok
    rw [tryingRun, hok]
    rfl
  | succ k ih =>
    intro c r v hfail hok hkr
    obtain ⟨e, he, hte⟩ := hfail 0 (Nat.succ_pos k)
    simp only [Nat.add_zero] at he
    cases r with
    | zero => omega
    | succ r2 =>
      rw [tryingRun, he]
      simp only [hte, if_true]
      have hfail2 : ∀ i, i < k → ∃ e2, f (c + 1 + i) = .error e2 ∧ isTr e2 = true := by
        intro i hi
        have := hfail (i + 1) (by omega)
        simpa [show c + (i + 1) = c + 1 + i by omega] using this
      have hok2 : f (c + 1 + k) = .ok v := by
        simpa [show c + (k + 1) = c + 1 + k by omega] using hok
      rw [ih (c + 1) r2 v hfail2 hok2 (by omega)]
      simp only [Prod.mk.injEq, true_and]
      rw [List.range_succ_eq_map, List.map_cons, List.map_map]
      simp only [Nat.add_zero]
      congr 1
      apply List.map_congr_left
      intro i _
      simp only [Function.comp]
      omega

theorem tryingRun_allFail {isTr : PyErr → Bool} {f : Nat → Except PyErr α}
    (e : Nat → PyErr) :
    ∀ (r c : Nat),
      (∀ i, f i = .error (e i)) → (∀ i, isTr (e i) = true) →
      tryingRun isTr f c r
        = (.error (e (c + r)), (List.range r).map (fun i => (c + i + 1) * 2)) := by
  intro r
  induction r with
  | zero =>
    intro c hf ht
    rw [tryingRun, hf c]
    simp [ht c]
  | succ r2 ih =>
    intro c hf ht
    rw [tryingRun, hf c]
    simp only [ht c, if_true]
    rw [ih (c + 1) hf ht]
    simp only [Prod.mk.injEq]
    constructor
    · rw [show c + 1 + r2 = c + (r2 + 1) by omega]
    · rw [List.range_succ_eq_map, List.map_cons, List.map_map]
      simp only [Nat.add_zero]
      congr 1
      apply List.map_congr_left
      intro i _
      simp only [Function.comp]
      omega

/-- C5: the retry wrapper of `trying_factory` retries a transiently
failing call exactly `MAX_RETRIES` additional times, sleeping 2, 4 and 6
seconds between the four calls, and then propagates the error of the last
call; a call that first succeeds within the cap returns that call's value
after the backoffs accumulated so far. The last two conjuncts run the
wrapper on the spec's two scenarios. -/
theorem trying_factory_retry_spec :
    (∀ {α : Type} (isTr : PyErr → Bool) (f : Nat → Except PyErr α) (e : Nat → PyErr),
       (∀ i, f i = .error (e i)) → (∀ i, isTr (e i) = true) →
       trying_factory isTr f = (.error (e MAX_RETRIES), [2, 4, 6]))
  ∧ (∀ {α : Type} (isTr : PyErr → Bool) (f : Nat → Except PyErr α) (k : Nat) (v : α),
       k ≤ MAX_RETRIES →
       (∀ i, i < k → ∃ e2, f i = .error e2 ∧ isTr e2 = true) →
       f k = .ok v →
       trying_factory isTr f = (.ok v, (List.range k).map (fun i => (i + 1) * 2)))
  ∧ trying_factory isRedisError (fun _ => (.error .redisError : Except PyErr Nat))
      = (.error .redisError, [2, 4, 6])
  ∧ trying_factory isRedisError
      (fun i => if i < 2 then .error .redisError else (.ok 5 : Except PyErr Nat))
      = (.ok 5, [2, 4]) := by
  refine ⟨?_, ?_, rfl, rfl⟩
  · intro α isTr f e hf ht
    rw [trying_factory, tryingRun_allFail e MAX_RETRIES 0 hf ht]
    rfl
  · intro α isTr f k v hk hfail hok
    rw [trying_factory,
        tryingRun_ok k 0 MAX_RETRIES v (by simpa using hfail) (by simpa using hok) hk]
    simp

end ScoringApi

namespace ScoringApi

/-- C4: amended. For the admin login the token is compared against
`sha512(nowHour ++ ADMIN_SALT)`; for a non-admin login with string
account and login the token is compared against
`sha512(account ++ login ++ SALT)`; but a non-admin login whose optional
`account` is absent (`None`) makes `check_auth` raise `TypeError` instead
of failing closed. -/
theorem check_auth_digest_spec :
    (∀ (env : Env) (m : PyModel),
       pyEqStr (dictGet m.values "login") ADMIN_LOGIN = true →
       check_auth env m
         = .ok (pyEqStr (dictGet m.values "token")
             (env.sha512 (env.nowHour ++ ADMIN_SALT))))
  ∧ (∀ (env : Env) (m : PyModel) (a l : String),
       dictGet m.values "account" = .str a → dictGet m.values "login" = .str l →
       l ≠ ADMIN_LOGIN →
       check_auth env m
         = .ok (pyEqStr (dictGet m.values "token")
             (env.sha512 (a ++ l ++ SALT))))
  ∧ (∀ (env : Env) (m : PyModel) (l : String),
       dictGet m.values "account" = .none → dictGet m.values "login" = .str l →
       l ≠ ADMIN_LOGIN →
       check_auth env m = .error .typeError) := by
  refine ⟨?_, ?_, ?_⟩
  · intro env m h
    simp [check_auth, h]
  · intro env m a l ha hl hne
    rw [check_auth, if_neg (by simp [hl, pyEqStr, hne]), ha, hl]
    simp only [pyAdd]
  · intro env m l ha hl hne
    rw [check_auth, if_neg (by simp [hl, pyEqStr, hne]), ha, hl]
    simp [pyAdd]

/-- C4: counterexample to the claim as stated — an envelope that passes
`MethodRequest` validation with its optional `account` absent makes
`check_auth` raise `TypeError` rather than return `false`. -/
theorem check_auth_absent_account_raises_cex :
    mkMethodRequest bodyAbsentAccount = .ok modelAbsentAccount
  ∧ errorTruthy modelAbsentAccount.errorSlot = false
  ∧ check_auth sampleEnv modelAbsentAccount = .error .typeError :=
  ⟨rfl, rfl, rfl⟩

theorem cache_get_once_of_ok {conn : RawGet} {c : Nat} {ob : Option String}
    (h : conn c = .ok ob) :
    (∃ x, cache_get_once conn c = .ok x)
    ∨ cache_get_once conn c = .error .valueError := by
  rw [cache_get_once, h]
  cases ob with
  | none => exact Or.inl ⟨Option.none, rfl⟩
  | some s =>
    cases hse : s.data.isEmpty with
    | true =>
      simp only [hse, Bool.not_true]
      exact Or.inl ⟨Option.none, rfl⟩
    | false =>
      simp only [hse, Bool.not_false, if_true]
      cases hp : pyFloatOfString s with
      | none => exact Or.inr (by simp [hp])
      | some v => exact Or.inl ⟨some v, by simp [hp]⟩

/-- C6: amended. `get` raises `StoreKeyNotFound` exactly when `cache_get`
yields no value or a zero float (the walrus `if value :=` tests float
truthiness, so a stored `0.0` is treated like an absent key); a non-zero
stored value is returned; a first-attempt answer — present or absent —
is never retried (no sleeps), while a connectivity error is retried. -/
theorem store_get_absence_spec :
    (∀ conn : RawGet, conn 0 = .ok Option.none →
       cache_get conn = (.ok Option.none, [])
       ∧ RedisStore_get conn = .error .storeKeyNotFound)
  ∧ (∀ (conn : RawGet) (s : String) (v : PyFloat),
       conn 0 = .ok (some s) → s.data.isEmpty = false → pyFloatOfString s = some v →
       cache_get conn = (.ok (some v), [])
       ∧ (v.mantissa = 0 → RedisStore_get conn = .error .storeKeyNotFound)
       ∧ (v.mantissa ≠ 0 → RedisStore_get conn = .ok v))
  ∧ (∀ (conn : RawGet) (ob : Option String),
       conn 0 = .error .redisError → conn 1 = .ok ob →
       (cache_get conn).2 = [2])
  ∧ cache_get (fun i => if i = 0 then .error .redisError else .ok (some "5.0"))
      = (.ok (some ⟨50, 1⟩), [2])
  ∧ cache_get (fun _ => .error .redisError)
      = (.error .redisError, [2, 4, 6]) := by
  refine ⟨?_, ?_, ?_, rfl, rfl⟩
  · intro conn h
    have h1 : cache_get conn = (.ok Option.none, []) := by
      rw [cache_get, trying_factory, tryingRun]
      rw [show cache_get_once conn 0 = .ok Option.none by rw [cache_get_once, h]]
    refine ⟨h1, ?_⟩
    rw [RedisStore_get, h1]
  · intro conn s v h hs hp
    have h1 : cache_get conn = (.ok (some v), []) := by
      rw [cache_get, trying_factory, tryingRun]
      rw [show cache_get_once conn 0 = .ok (some v) by
        rw [cache_get_once, h]; simp [hs, hp]]
    refine ⟨h1, ?_, ?_⟩
    · intro hz
      rw [RedisStore_get, h1]
      simp [hz]
    · intro hz
      rw [RedisStore_get, h1]
      simp [hz]
  · intro conn ob h0 h1
    rw [cache_get, trying_factory, tryingRun]
    rw [show cache_get_once conn 0 = .error .redisError by rw [cache_get_once, h0]]
    simp only [isRedisError, if_true, MAX_RETRIES]
    rcases cache_get_once_of_ok h1 with ⟨x, hx⟩ | hx <;>
      · rw [tryingRun, hx]
        try simp [isRedisError]

/-- C6: counterexample to the claim as stated — with the key present and
the stored bytes `"0.0"`, `cache_get` yields the float `0.0` yet `get`
raises `StoreKeyNotFound`, so the "raises exactly when the key is absent"
reading fails. -/
theorem get_zero_value_key_not_found_cex :
    cache_get (fun _ => .ok (some "0.0")) = (.ok (some ⟨0, 1⟩), [])
  ∧ RedisStore_get (fun _ => .ok (some "0.0")) = .error .storeKeyNotFound :=
  ⟨rfl, rfl⟩

end ScoringApi

namespace ScoringApi

theorem fieldStep_no_raise {f : FieldSpec} {v : PyVal} {b : Bool}
    (hb : f.is_valid v = .ok b) : ∀ e, fieldStep f v ≠ .raise e := by
  intro e
  rw [fieldStep]
  by_cases c1 : (isNone v && f.required) = true
  · simp [c1]
  · by_cases c2 : (!truthy v && !f.nullable) = true
    · simp [c1, c2]
    · by_cases c3 : truthy v = true
      · simp only [c1, c2, c3, if_false, if_true, hb]
        cases b <;> simp
      · simp only [c1, c2, c3, if_false]
        intro hcon
        split at hcon <;> simp_all

theorem validateFields_total (input : List (String × PyVal)) :
    ∀ (schema : List (String × Member)),
      (∀ name f, (name, Member.field f) ∈ schema → ∀ v, ∃ b, f.is_valid v = .ok b) →
      ∃ r, validateFields input schema = .ok r := by
  intro schema
  induction schema with
  | nil => intro _; exact ⟨_, rfl⟩
  | cons p rest ih =>
    obtain ⟨name, m⟩ := p
    intro h
    obtain ⟨r2, hr2⟩ := ih (fun n f hmem v => h n f (List.mem_cons_of_mem _ hmem) v)
    cases m with
    | plain =>
      exact ⟨⟨(name, dictGet input name) :: r2.values,
              (if isNone (dictGet input name) then r2.fields_set
               else name :: r2.fields_set), r2.errors⟩,
             by simp only [validateFields, hr2]⟩
    | field f =>
      cases hs : fieldStep f (dictGet input name) with
      | raise e =>
        obtain ⟨b, hb⟩ := h name f (List.mem_cons_self _ _) (dictGet input name)
        exact absurd hs (fieldStep_no_raise hb e)
      | err k =>
        exact ⟨⟨r2.values, r2.fields_set, ⟨k, name⟩ :: r2.errors⟩,
               by simp only [validateFields, hs, hr2]⟩
      | accept =>
        exact ⟨⟨(name, dictGet input name) :: r2.values,
                (if isNone (dictGet input name) then r2.fields_set
                 else name :: r2.fields_set), r2.errors⟩,
               by simp only [validateFields, hs, hr2]⟩

/-- C2: amended. When no validator raises, the error list of a validation
pass is exactly the independent per-member error of every declared field
(no short-circuit), a non-empty error list yields a `ValidationError` and
suppresses the constraint check, and the constraint predicate runs — and
can only produce its distinct `ConstrainError` — when the per-field error
list is empty. The last two conjuncts run the engine on an input with two
simultaneous field errors and on a constraint-violating input. -/
theorem validate_model_error_set_and_constraint_gate :
    (∀ (schema : List (String × Member)) (input : List (String × PyVal)),
       (∀ name f, (name, Member.field f) ∈ schema → ∀ v, ∃ b, f.is_valid v = .ok b) →
       ∃ r, validateFields input schema = .ok r)
  ∧ (∀ (schema : List (String × Member)) (root : Option (List String → Bool))
       (input : List (String × PyVal)) (r : VRes),
       validateFields input schema = .ok r →
         r.errors = schema.filterMap (memberError input)
       ∧ (r.errors ≠ [] → mkModel schema root input = .ok ⟨[], [], .validation r.errors⟩)
       ∧ (∀ f, r.errors = [] → root = some f → f r.fields_set = false →
            mkModel schema root input = .ok ⟨[], [], .constrain⟩)
       ∧ (∀ f, r.errors = [] → root = some f → f r.fields_set = true →
            mkModel schema root input
              = .ok ⟨r.values, r.fields_set, .value (dictGet r.values "error")⟩)
       ∧ (r.errors = [] → root = Option.none →
            mkModel schema root input
              = .ok ⟨r.values, r.fields_set, .value (dictGet r.values "error")⟩))
  ∧ mkOnlineScoreRequest 2026
      [("birthday", .str "20.04.1970"), ("email", .str "wrwerwer"),
       ("first_name", .str "Петя"), ("gender", .int 2),
       ("last_name", .str "Иванок"), ("phone", .str "89298405555")]
      = .ok ⟨[], [], .validation [⟨.fieldType, "email"⟩, ⟨.fieldType, "phone"⟩]⟩
  ∧ mkOnlineScoreRequest 2026 [("gender", .int 2), ("phone", .str "79298405555")]
      = .ok ⟨[], [], .constrain⟩ := by
  refine ⟨fun schema input h => validateFields_total input schema h, ?_, rfl, rfl⟩
  intro schema root input r h
  refine ⟨validateFields_errors_eq input schema r h, ?_, ?_, ?_, ?_⟩
  · intro hne
    rw [mkModel, h]
    cases herr : r.errors with
    | nil => exact absurd herr hne
    | cons a tl => simp [herr]
  · intro f herr hroot hf
    rw [mkModel, h]
    simp [herr, hroot, hf]
  · intro f herr hroot hf
    rw [mkModel, h]
    simp [herr, hroot, hf]
  · intro herr hroot
    rw [mkModel, h]
    simp [herr, hroot]

/-- C2: counterexample to the claim as stated — on arguments whose
birthday is the integer 1 and whose gender is the invalid 7, the gender
field would fail its validator, yet the pass raises `TypeError` at the
birthday field and returns no error set at all. -/
theorem validation_raise_drops_error_set_cex :
    mkOnlineScoreRequest 2026 [("birthday", .int 1), ("gender", .int 7)]
      = .error .typeError
  ∧ validateFields [("birthday", .int 1), ("gender", .int 7)]
      (OnlineScoreRequest_fields 2026) = .error .typeError
  ∧ fieldStep ⟨false, true, GenderField_is_valid⟩ (.int 7) = .err .fieldType :=
  ⟨rfl, rfl, rfl⟩

/-- C7: once an envelope has validated (its error slot is falsy) and
authenticated, a method name outside the two registered ones makes the
handler answer 400 Bad Request — a status distinct from the 422 of
validation failures and the 403 of authentication failures. -/
theorem unknown_method_returns_400 (env : Env) (entries : List (String × PyVal))
    (m : PyModel) (s : String)
    (hbody : truthy (.dict entries) = true)
    (hmk : mkMethodRequest entries = .ok m)
    (herr : errorTruthy m.errorSlot = false)
    (hauth : check_auth env m = .ok true)
    (hmeth : dictGet m.values "method" = .str s)
    (h1 : s ≠ "online_score") (h2 : s ≠ "clients_interests") :
    method_handler env (.dict entries) = .ok (.msg "Bad Request", BAD_REQUEST)
    ∧ BAD_REQUEST ≠ INVALID_REQUEST ∧ BAD_REQUEST ≠ FORBIDDEN := by
  refine ⟨?_, by decide, by decide⟩
  rw [method_handler]
  simp [hbody, hmk, herr, hauth, hmeth, h1, h2, get_error, ERRORS_msg,
    BAD_REQUEST, INVALID_REQUEST, FORBIDDEN, OK]

/-- C7 witness: a concrete validated, authentic envelope whose method is
the unregistered `"foo"`. -/
theorem unknown_method_returns_400_witness :
    method_handler sampleEnv (.dict bodyUnknownMethod)
      = .ok (.msg "Bad Request", BAD_REQUEST)
    ∧ BAD_REQUEST ≠ INVALID_REQUEST ∧ BAD_REQUEST ≠ FORBIDDEN :=
  unknown_method_returns_400 sampleEnv bodyUnknownMethod modelUnknownMethod "foo"
    rfl rfl rfl rfl rfl (by decide) (by decide)

/-- C8: an authenticated admin `online_score` request whose arguments
validate is answered 200 with the fixed body `{"score": 42}`, and the
answer does not change whatever function stands in for the external
`get_score` — the store and the scoring formula are bypassed. -/
theorem admin_online_score_returns_42 (env : Env) (entries : List (String × PyVal))
    (m a : PyModel)
    (hbody : truthy (.dict entries) = true)
    (hmk : mkMethodRequest entries = .ok m)
    (herr : errorTruthy m.errorSlot = false)
    (hauth : check_auth env m = .ok true)
    (hmeth : dictGet m.values "method" = .str "online_score")
    (hlogin : dictGet m.values "login" = .str ADMIN_LOGIN)
    (hargs : mkOnlineScoreRequest env.nowYear (argumentsDict m) = .ok a)
    (haerr : errorTruthy a.errorSlot = false) :
    method_handler env (.dict entries)
      = .ok (.payload (.dict [("score", .int ADMIN_SCORE)]), OK)
    ∧ ∀ gs, method_handler { env with get_score := gs } (.dict entries)
        = .ok (.payload (.dict [("score", .int ADMIN_SCORE)]), OK) := by
  have main : ∀ (env2 : Env), env2.sha512 = env.sha512 → env2.nowHour = env.nowHour →
      env2.nowYear = env.nowYear →
      method_handler env2 (.dict entries)
        = .ok (.payload (.dict [("score", .int ADMIN_SCORE)]), OK) := by
    intro env2 hsha hhour hyear
    have hauth2 : check_auth env2 m = .ok true := by
      rw [check_auth, hsha, hhour]
      rw [check_auth] at hauth
      exact hauth
    have hargs2 : mkOnlineScoreRequest env2.nowYear (argumentsDict m) = .ok a := by
      rw [hyear]; exact hargs
    rw [method_handler]
    simp only [hbody, Bool.not_true, Bool.false_eq_true, if_false, hmk, herr,
      Bool.not_false, if_true, hauth2, hmeth, if_pos rfl]
    rw [online_score, hargs2]
    simp [methodOutcome, hlogin, pyEqStr, haerr]
  exact ⟨main env rfl rfl rfl, fun gs => main { env with get_score := gs } rfl rfl rfl⟩

/-- C8 witness: the spec's end-to-end admin example, run concretely. -/
theorem admin_online_score_returns_42_witness :
    method_handler sampleEnv (.dict bodyAdminScore)
      = .ok (.payload (.dict [("score", .int ADMIN_SCORE)]), OK) :=
  (admin_online_score_returns_42 sampleEnv bodyAdminScore modelAdminScore
    argsAdminScore rfl rfl rfl rfl rfl rfl rfl rfl).1

end ScoringApi

namespace ScoringApi

theorem mem_firstOcc (l : List String) (x : String) : x ∈ firstOcc l ↔ x ∈ l := by
  induction l with
  | nil => simp [firstOcc]
  | cons y ys ih =>
    simp only [firstOcc, List.mem_cons, List.mem_filter, bne_iff_ne, ne_eq, ih]
    constructor
    · rintro (rfl | ⟨hx, _⟩)
      · exact Or.inl rfl
      · exact Or.inr hx
    · rintro (rfl | hx)
      · exact Or.inl rfl
      · by_cases hxy : x = y
        · exact Or.inl hxy
        · exact Or.inr ⟨hx, hxy⟩

theorem nodup_firstOcc (l : List String) : (firstOcc l).Nodup := by
  induction l with
  | nil => simp [firstOcc]
  | cons y ys ih =>
    rw [firstOcc, List.nodup_cons]
    refine ⟨?_, ih.filter _⟩
    intro hy
    have := (List.mem_filter.mp hy).2
    simp at this

theorem firstOcc_append (l : List String) (x : String) :
    firstOcc (l ++ [x]) = if x ∈ l then firstOcc l else firstOcc l ++ [x] := by
  induction l with
  | nil => simp [firstOcc]
  | cons y ys ih =>
    show firstOcc (y :: (ys ++ [x])) = _
    rw [firstOcc, ih]
    by_cases hmem : x ∈ ys
    · rw [if_pos hmem, if_pos (List.mem_cons_of_mem y hmem), firstOcc]
    · rw [if_neg hmem]
      by_cases hxy : x = y
      · subst hxy
        rw [if_pos (List.mem_cons_self x ys), firstOcc]
        simp [List.filter_append]
      · rw [if_neg (by simp [hxy, hmem]), firstOcc]
        simp [List.filter_append, bne_iff_ne, hxy]

theorem fieldsOfKind_append (t : String) (errs : List BaseError) (e : BaseError) :
    fieldsOfKind t (errs ++ [e])
      = fieldsOfKind t errs
        ++ (if error_text e.kind = t then [e.field] else []) := by
  simp only [fieldsOfKind, List.filter_append, List.map_append]
  congr 1
  by_cases h : error_text e.kind = t
  · simp [List.filter_cons, h]
  · simp [List.filter_cons, h]

theorem fieldsOfKind_eq_nil {t : String} {errs : List BaseError}
    (h : t ∉ errs.map (fun e => error_text e.kind)) : fieldsOfKind t errs = [] := by
  rw [fieldsOfKind, List.map_eq_nil_iff, List.filter_eq_nil_iff]
  intro e he
  simp only [beq_iff_eq]
  intro hc
  exact h (hc ▸ List.mem_map_of_mem (fun e2 => error_text e2.kind) he)

theorem groupInsert_not_mem {t f : String} :
    ∀ {ks : List String} (F : String → List String), t ∉ ks →
      groupInsert t f (ks.map (fun u => (u, F u)))
        = ks.map (fun u => (u, F u)) ++ [(t, [f])] := by
  intro ks
  induction ks with
  | nil => intro F _; rfl
  | cons k ks ih =>
    intro F h
    have hk : t ≠ k := fun hh => h (hh ▸ List.mem_cons_self k ks)
    simp only [List.map_cons, groupInsert, if_neg hk, List.cons_append]
    rw [ih F (fun hh => h (List.mem_cons_of_mem _ hh))]

theorem groupInsert_mem {t f : String} :
    ∀ {ks : List String} (F : String → List String), ks.Nodup → t ∈ ks →
      groupInsert t f (ks.map (fun u => (u, F u)))
        = ks.map (fun u => (u, if u = t then F u ++ [f] else F u)) := by
  intro ks
  induction ks with
  | nil => intro F _ h; cases h
  | cons k ks ih =>
    intro F hnd hm
    by_cases hk : t = k
    · subst hk
      have hnotin : t ∉ ks := (List.nodup_cons.mp hnd).1
      simp only [List.map_cons, groupInsert, if_pos rfl, if_true]
      congr 1
      apply List.map_congr_left
      intro u hu
      have : u ≠ t := fun hh => hnotin (hh ▸ hu)
      simp [this]
    · have hm2 : t ∈ ks := by
        cases hm with
        | head => exact absurd rfl hk
        | tail _ h2 => exact h2
      simp only [List.map_cons, groupInsert, if_neg hk]
      rw [ih F (List.nodup_cons.mp hnd).2 hm2]
      congr 1
      simp [Ne.symm hk]

theorem groupErrors_eq_specGroups (errs : List BaseError) :
    groupErrors errs = specGroups errs := by
  induction errs using List.reverseRecOn with
  | nil => rfl
  | append_singleton errs e ih =>
    have hstep : groupErrors (errs ++ [e])
        = groupInsert (error_text e.kind) e.field (groupErrors errs) := by
      simp [groupErrors, List.foldl_append]
    rw [hstep, ih]
    unfold specGroups
    rw [List.map_append, List.map_cons, List.map_nil, firstOcc_append]
    by_cases hmem : error_text e.kind ∈ errs.map (fun e2 => error_text e2.kind)
    · rw [if_pos hmem,
        groupInsert_mem (fun t => fieldsOfKind t errs)
          (nodup_firstOcc _) ((mem_firstOcc _ _).mpr hmem)]
      apply List.map_congr_left
      intro t _
      rw [fieldsOfKind_append]
      by_cases hte : t = error_text e.kind
      · subst hte
        simp
      · rw [if_neg hte, if_neg (fun hh => hte hh.symm)]
        simp
    · rw [if_neg hmem,
        groupInsert_not_mem (fun t => fieldsOfKind t errs)
          (fun hc => hmem ((mem_firstOcc _ _).mp hc)),
        List.map_append]
      congr 1
      · apply List.map_congr_left
        intro t ht
        have hne : t ≠ error_text e.kind :=
          fun hh => hmem (hh ▸ (mem_firstOcc _ _).mp ht)
        rw [fieldsOfKind_append, if_neg (fun hh => hne hh.symm)]
        simp
      · simp only [List.map_cons, List.map_nil]
        rw [fieldsOfKind_append, if_pos rfl, fieldsOfKind_eq_nil hmem]
        rfl

theorem get_message_eq_specRender (errs : List BaseError) :
    ValidationError_get_message errs = specRender errs := by
  rw [ValidationError_get_message, specRender, groupErrors_eq_specGroups]

end ScoringApi


namespace ScoringApi

theorem strLtChars_self (l : List Char) : strLtChars l l = false := by
  induction l with
  | nil => rfl
  | cons a as ih => simp [strLtChars, ih]

theorem strLt_irrefl (a : String) : strLt a a = false :=
  strLtChars_self a.data

theorem osr_member_names_sorted (y : Int) :
    ((OnlineScoreRequest_fields y).map Prod.fst).Pairwise
      (fun a b : String => strLt a b = true) := by
  show (["birthday", "email", "error", "first_name", "gender", "last_name",
         "phone"] : List String).Pairwise (fun a b : String => strLt a b = true)
  decide

theorem validateFields_errors_pairwise {input : List (String × PyVal)}
    {r : VRes} (schema : List (String × Member))
    (hp : (schema.map Prod.fst).Pairwise (fun a b : String => strLt a b = true))
    (h : validateFields input schema = .ok r) :
    r.errors.Pairwise (fun a b => strLt a.field b.field = true) := by
  rw [validateFields_errors_eq input schema r h]
  apply List.Pairwise.filterMap (memberError input)
    (R := fun p q : String × Member => strLt p.1 q.1 = true)
  · intro p q hpq e he e2 he2
    rw [memberError_field (Option.mem_def.mp he),
        memberError_field (Option.mem_def.mp he2)]
    exact hpq
  · exact List.pairwise_map.mp hp

/-- C3: amended. In one validation pass each field appears in at most one
error kind, and both the error list and the rendered message list the
fields of `OnlineScoreRequest` in alphabetical order — the order
`inspect.getmembers` yields — not in declaration order; the message
groups errors by kind in order of first occurrence, fields per kind in
that alphabetical order, kinds joined by a comma and space (the
`specRender` equality, stated from the spec's words, and the repository's
own integration-test message as a concrete instance). -/
theorem osr_errors_alphabetical_and_grouped :
    (∀ (nowYear : Int) (input : List (String × PyVal)) (r : VRes),
       validateFields input (OnlineScoreRequest_fields nowYear) = .ok r →
         r.errors.Pairwise (fun a b => strLt a.field b.field = true)
       ∧ (r.errors.map (fun e => e.field)).Nodup)
  ∧ (∀ errs : List BaseError, ValidationError_get_message errs = specRender errs)
  ∧ ValidationError_get_message [⟨.fieldType, "email"⟩, ⟨.fieldType, "phone"⟩]
      = "Поля имеют не верный тип: ['email', 'phone']"
  ∧ ValidationError_get_message [⟨.missing, "login"⟩, ⟨.fieldType, "phone"⟩]
      = "Пропущены обязательные поля: ['login'], Поля имеют не верный тип: ['phone']" := by
  refine ⟨?_, get_message_eq_specRender, rfl, rfl⟩
  intro nowYear input r h
  have hpw := validateFields_errors_pairwise (OnlineScoreRequest_fields nowYear)
    (osr_member_names_sorted nowYear) h
  refine ⟨hpw, ?_⟩
  refine List.pairwise_map.mpr (hpw.imp (fun hab heq => ?_))
  rw [heq, strLt_irrefl] at hab
  cases hab

/-- C3: counterexample to the claim as stated — on the repository's own
integration-test input with a bad gender and a bad phone, the error list
and the message show `gender` before `phone`, although the schema
declares `phone` (4th) before `gender` (6th): the order is alphabetical,
not declaration order. -/
theorem error_order_not_declaration_order_cex :
    mkOnlineScoreRequest 2026
      [("birthday", .str "20.04.1970"), ("email", .str "wrwe@rwer"),
       ("first_name", .str ""), ("gender", .int 20), ("phone", .str "89298405555")]
      = .ok ⟨[], [], .validation [⟨.fieldType, "gender"⟩, ⟨.fieldType, "phone"⟩]⟩
  ∧ ValidationError_get_message [⟨.fieldType, "gender"⟩, ⟨.fieldType, "phone"⟩]
      = "Поля имеют не верный тип: ['gender', 'phone']"
  ∧ OnlineScoreRequest_declaration_order.indexOf "phone"
      < OnlineScoreRequest_declaration_order.indexOf "gender" := by
  refine ⟨rfl, rfl, ?_⟩
  decide

end ScoringApi

namespace ScoringApi

/-- Sanity: the repository's own unit-test table for the validators,
replayed against the embedding (tests/unit/test_unit.py; the birthday
rows are evaluated at the year the tests were written against). -/
theorem unit_test_validator_table :
    CharField_is_valid (.int 123) = .ok false
  ∧ CharField_is_valid (.str "string") = .ok true
  ∧ CharField_is_valid (.list [.str "string"]) = .ok false
  ∧ ArgumentsField_is_valid (.int 123) = .ok false
  ∧ ArgumentsField_is_valid (.str "string") = .ok false
  ∧ ArgumentsField_is_valid (.dict [("key", .str "value")]) = .ok true
  ∧ EmailField_is_valid (.str "mail@mail.ru") = .ok true
  ∧ EmailField_is_valid (.str "string") = .ok false
  ∧ EmailField_is_valid (.int 123) = .ok false
  ∧ PhoneField_is_valid (.str "12345670000") = .ok false
  ∧ PhoneField_is_valid (.str "76543210000") = .ok true
  ∧ PhoneField_is_valid (.int 76543210000) = .ok true
  ∧ PhoneField_is_valid (.str "765432100001") = .ok false
  ∧ PhoneField_is_valid (.int 765432100001) = .ok false
  ∧ PhoneField_is_valid (.int 12345670000) = .ok false
  ∧ DateField_is_valid 2022 (.str "20.04.88") = .ok false
  ∧ DateField_is_valid 2022 (.str "20.04.1970") = .ok true
  ∧ DateField_is_valid 2022 (.str "20/04/1970") = .ok false
  ∧ DateField_is_valid 2022 (.str "20-04-1970") = .ok false
  ∧ DateField_is_valid 2022 (.str "2005-08-09T18:31:42") = .ok false
  ∧ BirthDayField_is_valid 2022 (.str "20.04.1953") = .ok true
  ∧ BirthDayField_is_valid 2022 (.str "20.04.1952") = .ok false
  ∧ GenderField_is_valid (.str "1") = .ok false
  ∧ GenderField_is_valid (.int 1) = .ok true
  ∧ GenderField_is_valid (.int 3) = .ok false
  ∧ ClientIDsField_is_valid (.str "1, 2, 3") = .ok false
  ∧ ClientIDsField_is_valid (.int 1) = .ok false
  ∧ ClientIDsField_is_valid (.list []) = .ok false
  ∧ ClientIDsField_is_valid (.list [.str "1", .str "2"]) = .ok false
  ∧ ClientIDsField_is_valid (.list [.int 1, .int 2]) = .ok true
  ∧ ClientIDsField_is_valid (.list [.int 0]) = .ok true := by
  repeat constructor

end ScoringApi
